import Mathlib

/-!
Verification of the album thumbnail consistency logic of
`src/server/src/infra/repositories/album.repository.ts` (immich).

The database state is embedded shallowly as a `Snapshot`: the `albums`
table, the `assets` table and the `albums_assets_assets` many-to-many
join table (rows are `(albumsId, assetsId)` pairs).  SQL queries of the
repository become pure Lean functions over a `Snapshot`; the bulk
`UPDATE` of `updateThumbnails` becomes a function producing the new
`Snapshot` together with the driver-reported affected-row count
(`Option Nat`, `none` when the driver cannot report one, mirroring
TypeORM's `UpdateResult.affected?: number`).

The correlated subquery `newThumbnail`
(`ORDER BY assets.fileCreatedAt DESC LIMIT 1`) does not determine which
row is returned when several member assets share the maximal
`fileCreatedAt`: that order is database-dependent.  It is therefore
embedded as an explicit parameter `newThumbnail : String → Option String`
constrained by `NewThumbnailSpec`, which states exactly what the SQL
guarantees: the result is `none` iff the album has no member asset
(joined against the `assets` table), and otherwise some member asset of
maximal `fileCreatedAt`.
-/

/-- An `assets` table row: only the columns the queries read. -/
structure AssetEntity where
  id : String
  fileCreatedAt : Int
deriving DecidableEq, Repr

/-- An `albums` table row: only the columns the claims mention.
`ownerId` and `createdAt` are carried to make the frame condition
(only `albumThumbnailAssetId` is written) meaningful. -/
structure AlbumEntity where
  id : String
  ownerId : String
  albumThumbnailAssetId : Option String
  createdAt : Int
deriving DecidableEq, Repr

/-- A snapshot of the three tables the repository touches.
A row of `albums_assets_assets` is `(albumsId, assetsId)`. -/
structure Snapshot where
  albums : List AlbumEntity
  assets : List AssetEntity
  albums_assets_assets : List (String × String)
deriving DecidableEq, Repr

/-- The `albumHasAssets` subquery:
`SELECT 1 FROM albums_assets_assets WHERE albums.id = albumsId`,
used under `EXISTS`. -/
def albumHasAssets (rows : List (String × String)) (album : AlbumEntity) : Bool :=
  rows.any (fun r => r.1 == album.id)

/-- The `albumContainsThumbnail` subquery: `albumHasAssets` with the
extra conjunct `albums.albumThumbnailAssetId = assetsId` (SQL `=`
against `NULL` is never satisfied, hence the `Option` equality). -/
def albumContainsThumbnail (rows : List (String × String)) (album : AlbumEntity) : Bool :=
  rows.any (fun r => r.1 == album.id && album.albumThumbnailAssetId == some r.2)

/-- The shared `WHERE` clause of `getInvalidThumbnail` and
`updateThumbnails`:
`(albumThumbnailAssetId IS NULL AND EXISTS albumHasAssets) OR
 (albumThumbnailAssetId IS NOT NULL AND NOT EXISTS albumContainsThumbnail)`. -/
def isInvalidThumbnail (rows : List (String × String)) (album : AlbumEntity) : Bool :=
  (album.albumThumbnailAssetId.isNone && albumHasAssets rows album) ||
  (album.albumThumbnailAssetId.isSome && !albumContainsThumbnail rows album)

/-- `getInvalidThumbnail`: ids of the albums matched by the invalid
thumbnail condition. -/
def getInvalidThumbnail (db : Snapshot) : List String :=
  (db.albums.filter (isInvalidThumbnail db.albums_assets_assets)).map (fun a => a.id)

/-- The member assets of an album: the join
`FROM assets, albums_assets_assets WHERE assetsId = assets.id AND albumsId = ?`
underlying the `newThumbnail` subquery. -/
def memberAssets (db : Snapshot) (albumId : String) : List AssetEntity :=
  db.assets.filter (fun a => db.albums_assets_assets.any (fun r => r.1 == albumId && r.2 == a.id))

/-- What the SQL fixes about the `newThumbnail` subquery for one album:
`none` exactly when the join is empty, otherwise the id of some member
asset whose `fileCreatedAt` is maximal (`ORDER BY fileCreatedAt DESC
LIMIT 1`; the choice among ties is database-dependent). -/
def newThumbnailSpecFor (db : Snapshot) (albumId : String) (c : Option String) : Bool :=
  match c with
  | none => (memberAssets db albumId).isEmpty
  | some x =>
      (memberAssets db albumId).any (fun a =>
        a.id == x &&
        (memberAssets db albumId).all (fun b => decide (b.fileCreatedAt ≤ a.fileCreatedAt)))

/-- A `newThumbnail` function is a possible behaviour of the subquery
on every album of the snapshot. -/
def NewThumbnailSpec (db : Snapshot) (newThumbnail : String → Option String) : Prop :=
  ∀ album ∈ db.albums, newThumbnailSpecFor db album.id (newThumbnail album.id) = true

/-- The per-row effect of the bulk `UPDATE`: a matched album gets
`albumThumbnailAssetId` overwritten with the subquery's value, any
other album is untouched. -/
def applyUpdate (db : Snapshot) (newThumbnail : String → Option String)
    (album : AlbumEntity) : AlbumEntity :=
  if isInvalidThumbnail db.albums_assets_assets album then
    { album with albumThumbnailAssetId := newThumbnail album.id }
  else album

/-- `updateThumbnails`: the single bulk
`UPDATE albums SET albumThumbnailAssetId = (newThumbnail) WHERE ...`.
Returns the new snapshot and `result.affected`
(`some` matched-row count when the driver reports one, `none`
otherwise). -/
def updateThumbnails (db : Snapshot) (newThumbnail : String → Option String)
    (driverReportsAffected : Bool) : Snapshot × Option Nat :=
  ({ db with albums := db.albums.map (applyUpdate db newThumbnail) },
   if driverReportsAffected then
     some ((db.albums.filter (isInvalidThumbnail db.albums_assets_assets)).length)
   else none)

/-- Referential integrity of the join table, as the relational data
model guarantees (`assetsId` is a foreign key into `assets`): every
membership row references an existing asset. -/
def WellFormed (db : Snapshot) : Prop :=
  ∀ r ∈ db.albums_assets_assets, ∃ a ∈ db.assets, a.id = r.2

/-- The §3 invariant, written from the spec's words: either the
thumbnail is `NULL` and the album has no member, or it references a
current member.  Its negation, per album, is the spec's description of
`findInconsistentAlbums`: (a) `NULL` thumbnail with ≥ 1 member, or
(b) non-`NULL` thumbnail that is not a member. -/
def SpecViolatesInvariant (db : Snapshot) (album : AlbumEntity) : Prop :=
  (album.albumThumbnailAssetId = none ∧ ∃ x, (album.id, x) ∈ db.albums_assets_assets) ∨
  (∃ t, album.albumThumbnailAssetId = some t ∧ (album.id, t) ∉ db.albums_assets_assets)

instance (db : Snapshot) (album : AlbumEntity) :
    Decidable (SpecViolatesInvariant db album) := by
  unfold SpecViolatesInvariant
  have : Decidable (∃ x, (album.id, x) ∈ db.albums_assets_assets) := by
    refine decidable_of_iff (db.albums_assets_assets.any (fun r => r.1 == album.id) = true) ?_
    simp only [List.any_eq_true, beq_iff_eq]
    constructor
    · rintro ⟨r, hr, h1⟩
      exact ⟨r.2, by simpa [← h1] using hr⟩
    · rintro ⟨x, hx⟩
      exact ⟨(album.id, x), hx, rfl⟩
  exact inferInstance

instance (db : Snapshot) : Decidable (WellFormed db) := by
  unfold WellFormed; exact inferInstance

instance (db : Snapshot) (f : String → Option String) :
    Decidable (NewThumbnailSpec db f) := by
  unfold NewThumbnailSpec; exact inferInstance

/-- The `AlbumAssetCount` result shape of `getAssetCountForIds`. -/
structure AlbumAssetCount where
  albumId : String
  assetCount : Nat
deriving DecidableEq, Repr

/-- `getAssetCountForIds`: returns `[]` without running a query when
`ids` is empty; otherwise one `GROUP BY album.id` query
(`LEFT JOIN albums_assets_assets`, `COUNT(assetsId)`) over the albums
whose id is in `ids`.  The first component counts the queries issued to
the store (`0` on the empty-input guard, `1` otherwise). -/
def getAssetCountForIds (db : Snapshot) (ids : List String) :
    Nat × List AlbumAssetCount :=
  if ids.isEmpty then (0, [])
  else
    (1,
     (db.albums.filter (fun album => ids.contains album.id)).map (fun album =>
       { albumId := album.id,
         assetCount :=
           (db.albums_assets_assets.filter (fun r => r.1 == album.id)).length }))

/-- The spec's error kind for a transport failure to the data store. -/
inductive StoreError where
  | storeUnavailable
deriving DecidableEq, Repr

/-- Modelled from the spec: the transport to the backing data store is
not part of the repository source — `updateThumbnails` issues its one
bulk `UPDATE` through the ORM and propagates the driver's failure.
Per the spec's failure contract, when the store is unreachable the
operation fails with `StoreUnavailable` and, the correction being a
single atomic statement, performs no partial write.  `available` is the
store's reachability at the time of the call. -/
def updateThumbnailsE (db : Snapshot) (newThumbnail : String → Option String)
    (driverReportsAffected : Bool) (available : Bool) :
    Snapshot × Except StoreError (Option Nat) :=
  if available then
    ((updateThumbnails db newThumbnail driverReportsAffected).1,
     Except.ok (updateThumbnails db newThumbnail driverReportsAffected).2)
  else (db, Except.error StoreError.storeUnavailable)

-- Basic characterisations of the Boolean queries.

theorem albumHasAssets_iff (rows : List (String × String)) (album : AlbumEntity) :
    albumHasAssets rows album = true ↔ ∃ x, (album.id, x) ∈ rows := by
  simp only [albumHasAssets, List.any_eq_true, beq_iff_eq]
  constructor
  · rintro ⟨r, hr, h1⟩
    exact ⟨r.2, by simpa [← h1] using hr⟩
  · rintro ⟨x, hx⟩
    exact ⟨(album.id, x), hx, rfl⟩

theorem albumContainsThumbnail_iff (rows : List (String × String)) (album : AlbumEntity) :
    albumContainsThumbnail rows album = true ↔
      ∃ t, album.albumThumbnailAssetId = some t ∧ (album.id, t) ∈ rows := by
  simp only [albumContainsThumbnail, List.any_eq_true, Bool.and_eq_true, beq_iff_eq]
  constructor
  · rintro ⟨r, hr, h1, h2⟩
    exact ⟨r.2, h2, by simpa [← h1] using hr⟩
  · rintro ⟨t, ht, hmem⟩
    exact ⟨(album.id, t), hmem, rfl, ht⟩

theorem isInvalidThumbnail_iff (db : Snapshot) (album : AlbumEntity) :
    isInvalidThumbnail db.albums_assets_assets album = true ↔
      SpecViolatesInvariant db album := by
  cases h : album.albumThumbnailAssetId with
  | none =>
      simp [isInvalidThumbnail, SpecViolatesInvariant, h,
        albumHasAssets_iff db.albums_assets_assets album]
  | some t =>
      simp only [isInvalidThumbnail, SpecViolatesInvariant, h, Option.isNone_some,
        Bool.false_and, Option.isSome_some, Bool.true_and, Bool.false_or,
        Bool.not_eq_true', Option.some.injEq]
      constructor
      · intro hfalse
        refine Or.inr ⟨t, rfl, fun hmem => ?_⟩
        have : albumContainsThumbnail db.albums_assets_assets album = true :=
          (albumContainsThumbnail_iff _ _).2 ⟨t, h, hmem⟩
        simp [this] at hfalse
      · rintro (⟨hnone, -⟩ | ⟨t', ht', hnm⟩)
        · simp at hnone
        · cases ht'
          cases hc : albumContainsThumbnail db.albums_assets_assets album
          · rfl
          · rcases (albumContainsThumbnail_iff _ _).1 hc with ⟨u, hu, humem⟩
            rw [h] at hu
            cases hu
            exact absurd humem hnm

theorem mem_memberAssets_iff (db : Snapshot) (albumId : String) (a : AssetEntity) :
    a ∈ memberAssets db albumId ↔
      a ∈ db.assets ∧ (albumId, a.id) ∈ db.albums_assets_assets := by
  simp only [memberAssets, List.mem_filter, List.any_eq_true, Bool.and_eq_true, beq_iff_eq]
  constructor
  · rintro ⟨ha, r, hr, h1, h2⟩
    refine ⟨ha, ?_⟩
    have : r = (albumId, a.id) := by
      cases r; simp_all
    simpa [← this] using hr
  · rintro ⟨ha, hmem⟩
    exact ⟨ha, (albumId, a.id), hmem, rfl, rfl⟩

theorem WellFormed.memberAssets_ne_nil {db : Snapshot} (hwf : WellFormed db)
    {albumId x : String} (hmem : (albumId, x) ∈ db.albums_assets_assets) :
    ∃ a ∈ memberAssets db albumId, a.id = x := by
  rcases hwf _ hmem with ⟨a, ha, hid⟩
  refine ⟨a, (mem_memberAssets_iff db albumId a).2 ⟨ha, ?_⟩, hid⟩
  rw [hid]; exact hmem

theorem NewThumbnailSpec.eq_none {db : Snapshot} {f : String → Option String}
    (h : NewThumbnailSpec db f) {album : AlbumEntity} (hmem : album ∈ db.albums)
    (hn : f album.id = none) : memberAssets db album.id = [] := by
  have := h album hmem
  rw [hn] at this
  simpa [newThumbnailSpecFor, List.isEmpty_iff] using this

theorem NewThumbnailSpec.eq_some {db : Snapshot} {f : String → Option String}
    (h : NewThumbnailSpec db f) {album : AlbumEntity} (hmem : album ∈ db.albums)
    {x : String} (hs : f album.id = some x) :
    ∃ a ∈ memberAssets db album.id, a.id = x ∧
      ∀ b ∈ memberAssets db album.id, b.fileCreatedAt ≤ a.fileCreatedAt := by
  have := h album hmem
  rw [hs] at this
  simp only [newThumbnailSpecFor, List.any_eq_true, Bool.and_eq_true, beq_iff_eq,
    List.all_eq_true, decide_eq_true_eq] at this
  rcases this with ⟨a, ha, hid, hmax⟩
  exact ⟨a, ha, hid, hmax⟩

-- Fields of the snapshot untouched by updateThumbnails (definitional).

theorem updateThumbnails_assets (db : Snapshot) (f : String → Option String) (rep : Bool) :
    (updateThumbnails db f rep).1.assets = db.assets := rfl

theorem updateThumbnails_rows (db : Snapshot) (f : String → Option String) (rep : Bool) :
    (updateThumbnails db f rep).1.albums_assets_assets = db.albums_assets_assets := rfl

theorem updateThumbnails_albums (db : Snapshot) (f : String → Option String) (rep : Bool) :
    (updateThumbnails db f rep).1.albums = db.albums.map (applyUpdate db f) := rfl

theorem applyUpdate_id (db : Snapshot) (f : String → Option String) (album : AlbumEntity) :
    (applyUpdate db f album).id = album.id := by
  unfold applyUpdate
  split <;> rfl

theorem applyUpdate_of_valid {db : Snapshot} {f : String → Option String}
    {album : AlbumEntity}
    (h : isInvalidThumbnail db.albums_assets_assets album = false) :
    applyUpdate db f album = album := by
  simp [applyUpdate, h]

/-- The key invariant-restoration lemma: a well-formed snapshot and a
subquery behaviour allowed by the SQL make every updated album row
satisfy the thumbnail condition afterwards. -/
theorem applyUpdate_not_invalid {db : Snapshot} {f : String → Option String}
    (hwf : WellFormed db) (hf : NewThumbnailSpec db f)
    {album : AlbumEntity} (hmem : album ∈ db.albums) :
    isInvalidThumbnail db.albums_assets_assets (applyUpdate db f album) = false := by
  by_cases hinv : isInvalidThumbnail db.albums_assets_assets album = true
  · unfold applyUpdate
    rw [hinv]
    simp only [if_true]
    cases hc : f album.id with
    | none =>
        have hempty := hf.eq_none hmem hc
        rw [Bool.eq_false_iff]
        intro habs
        rcases (isInvalidThumbnail_iff db _).1 habs with ⟨-, x, hx⟩ | ⟨t, ht, -⟩
        · simp only at hx
          rcases hwf.memberAssets_ne_nil hx with ⟨a, ha, -⟩
          rw [hempty] at ha
          exact absurd ha (List.not_mem_nil a)
        · simp at ht
    | some x =>
        rcases hf.eq_some hmem hc with ⟨a, ha, hid, -⟩
        have hrow : (album.id, x) ∈ db.albums_assets_assets := by
          have := ((mem_memberAssets_iff db album.id a).1 ha).2
          rwa [hid] at this
        rw [Bool.eq_false_iff]
        intro habs
        rcases (isInvalidThumbnail_iff db _).1 habs with ⟨hnone, -⟩ | ⟨t, ht, hnm⟩
        · simp at hnone
        · simp only [Option.some.injEq] at ht
          cases ht
          exact hnm hrow
  · rw [Bool.not_eq_true] at hinv
    rw [applyUpdate_of_valid hinv]
    exact hinv

/-- Every album row of the post-state satisfies the thumbnail
condition (still phrased against the unchanged join table). -/
theorem updateThumbnails_post_valid {db : Snapshot} {f : String → Option String}
    (hwf : WellFormed db) (hf : NewThumbnailSpec db f) (rep : Bool) :
    ∀ album ∈ (updateThumbnails db f rep).1.albums,
      isInvalidThumbnail (updateThumbnails db f rep).1.albums_assets_assets album = false := by
  intro album halbum
  rw [updateThumbnails_albums, List.mem_map] at halbum
  rcases halbum with ⟨a, ha, rfl⟩
  rw [updateThumbnails_rows]
  exact applyUpdate_not_invalid hwf hf ha

/-- C2: `getInvalidThumbnail` returns exactly the set of album ids
violating the §3 invariant — (a) `NULL` thumbnail with at least one
member, or (b) non-`NULL` thumbnail whose asset is not a member — and
no other albums. -/
theorem getInvalidThumbnail_exact (db : Snapshot) (albumId : String) :
    albumId ∈ getInvalidThumbnail db ↔
      ∃ album ∈ db.albums, album.id = albumId ∧ SpecViolatesInvariant db album := by
  simp only [getInvalidThumbnail, List.mem_map, List.mem_filter]
  constructor
  · rintro ⟨a, ⟨ha, hinv⟩, rfl⟩
    exact ⟨a, ha, rfl, (isInvalidThumbnail_iff db a).1 hinv⟩
  · rintro ⟨a, ha, rfl, hviol⟩
    exact ⟨a, ⟨ha, (isInvalidThumbnail_iff db a).2 hviol⟩, rfl⟩

/-- Witness for C2 on a concrete snapshot: the album with a stale
thumbnail is reported. -/
theorem getInvalidThumbnail_exact_witness :
    "A" ∈ getInvalidThumbnail ⟨[⟨"A", "u", some "z", 0⟩], [⟨"x", 5⟩], [("A", "x")]⟩ ↔
      ∃ album ∈ (⟨[⟨"A", "u", some "z", 0⟩], [⟨"x", 5⟩], [("A", "x")]⟩ : Snapshot).albums,
        album.id = "A" ∧
        SpecViolatesInvariant ⟨[⟨"A", "u", some "z", 0⟩], [⟨"x", 5⟩], [("A", "x")]⟩ album :=
  getInvalidThumbnail_exact ⟨[⟨"A", "u", some "z", 0⟩], [⟨"x", 5⟩], [("A", "x")]⟩ "A"

/-- C1: on a snapshot with referential integrity and for any behaviour
of the `newThumbnail` subquery allowed by the SQL, after
`updateThumbnails` the set of invalid albums is empty. -/
theorem updateThumbnails_restores_invariant (db : Snapshot)
    (f : String → Option String) (rep : Bool)
    (hwf : WellFormed db) (hf : NewThumbnailSpec db f) :
    getInvalidThumbnail (updateThumbnails db f rep).1 = [] := by
  have h := updateThumbnails_post_valid hwf hf rep
  unfold getInvalidThumbnail
  rw [List.map_eq_nil_iff, List.filter_eq_nil_iff]
  intro a ha
  simp [h a ha]

/-- Witness for C1: one album with a `NULL` thumbnail and one member
asset; after the update no invalid album remains. -/
theorem updateThumbnails_restores_invariant_witness :
    getInvalidThumbnail
      (updateThumbnails ⟨[⟨"A", "u", none, 0⟩], [⟨"x", 5⟩], [("A", "x")]⟩
        (fun _ => some "x") true).1 = [] :=
  updateThumbnails_restores_invariant _ _ true (by decide) (by decide)

/-- C3: every invalid album's row in the post-state carries either the
id of a member asset of maximal `fileCreatedAt`, or `NULL` when the
album has no member asset. -/
theorem updateThumbnails_picks_latest_member (db : Snapshot)
    (f : String → Option String) (rep : Bool)
    (hf : NewThumbnailSpec db f)
    (album : AlbumEntity) (hmem : album ∈ db.albums)
    (hinv : isInvalidThumbnail db.albums_assets_assets album = true) :
    applyUpdate db f album ∈ (updateThumbnails db f rep).1.albums ∧
    ((memberAssets db album.id = [] ∧
        (applyUpdate db f album).albumThumbnailAssetId = none) ∨
     (∃ a ∈ memberAssets db album.id,
        (applyUpdate db f album).albumThumbnailAssetId = some a.id ∧
        ∀ b ∈ memberAssets db album.id, b.fileCreatedAt ≤ a.fileCreatedAt)) := by
  have happ : (applyUpdate db f album).albumThumbnailAssetId = f album.id := by
    simp [applyUpdate, hinv]
  constructor
  · rw [updateThumbnails_albums]
    exact List.mem_map_of_mem _ hmem
  · cases hc : f album.id with
    | none => exact Or.inl ⟨hf.eq_none hmem hc, by rw [happ, hc]⟩
    | some x =>
        rcases hf.eq_some hmem hc with ⟨a, ha, hid, hmax⟩
        exact Or.inr ⟨a, ha, by rw [happ, hc, hid], hmax⟩

/-- Witness for C3: album with stale thumbnail `"z"`, members `"x"`
(newer) and `"y"`; the update row holds a maximal member. -/
theorem updateThumbnails_picks_latest_member_witness :
    applyUpdate ⟨[⟨"A", "u", some "z", 0⟩], [⟨"x", 5⟩, ⟨"y", 3⟩], [("A", "x"), ("A", "y")]⟩
        (fun _ => some "x") ⟨"A", "u", some "z", 0⟩ ∈
      (updateThumbnails ⟨[⟨"A", "u", some "z", 0⟩], [⟨"x", 5⟩, ⟨"y", 3⟩], [("A", "x"), ("A", "y")]⟩
        (fun _ => some "x") true).1.albums ∧
    ((memberAssets ⟨[⟨"A", "u", some "z", 0⟩], [⟨"x", 5⟩, ⟨"y", 3⟩], [("A", "x"), ("A", "y")]⟩ "A" = [] ∧
        (applyUpdate ⟨[⟨"A", "u", some "z", 0⟩], [⟨"x", 5⟩, ⟨"y", 3⟩], [("A", "x"), ("A", "y")]⟩
          (fun _ => some "x") ⟨"A", "u", some "z", 0⟩).albumThumbnailAssetId = none) ∨
     (∃ a ∈ memberAssets ⟨[⟨"A", "u", some "z", 0⟩], [⟨"x", 5⟩, ⟨"y", 3⟩], [("A", "x"), ("A", "y")]⟩ "A",
        (applyUpdate ⟨[⟨"A", "u", some "z", 0⟩], [⟨"x", 5⟩, ⟨"y", 3⟩], [("A", "x"), ("A", "y")]⟩
          (fun _ => some "x") ⟨"A", "u", some "z", 0⟩).albumThumbnailAssetId = some a.id ∧
        ∀ b ∈ memberAssets ⟨[⟨"A", "u", some "z", 0⟩], [⟨"x", 5⟩, ⟨"y", 3⟩], [("A", "x"), ("A", "y")]⟩ "A",
          b.fileCreatedAt ≤ a.fileCreatedAt)) :=
  updateThumbnails_picks_latest_member _ _ true (by decide) _ (by decide) (by decide)

/-- An auxiliary map identity: a function fixing every element of a
list maps the list to itself. -/
theorem list_map_eq_self_of_mem {α : Type} {l : List α} {f : α → α}
    (h : ∀ a ∈ l, f a = a) : l.map f = l := by
  induction l with
  | nil => rfl
  | cons x xs ih =>
      simp only [List.map_cons]
      rw [h x (List.mem_cons_self x xs), ih (fun a ha => h a (List.mem_cons_of_mem x ha))]

/-- C4: running `updateThumbnails` again on the post-state (with any
subquery behaviour for the second run) reports zero affected albums and
changes nothing. -/
theorem updateThumbnails_idempotent (db : Snapshot)
    (f g : String → Option String) (r1 r2 : Bool)
    (hwf : WellFormed db) (hf : NewThumbnailSpec db f) :
    (updateThumbnails (updateThumbnails db f r1).1 g true).2 = some 0 ∧
    (updateThumbnails (updateThumbnails db f r1).1 g r2).1 =
      (updateThumbnails db f r1).1 := by
  have hvalid := updateThumbnails_post_valid hwf hf r1
  have hfilter :
      (updateThumbnails db f r1).1.albums.filter
        (isInvalidThumbnail (updateThumbnails db f r1).1.albums_assets_assets) = [] := by
    rw [List.filter_eq_nil_iff]
    intro a ha
    simp [hvalid a ha]
  have hmap :
      (updateThumbnails db f r1).1.albums.map (applyUpdate (updateThumbnails db f r1).1 g) =
        (updateThumbnails db f r1).1.albums :=
    list_map_eq_self_of_mem (fun a ha => applyUpdate_of_valid (by
      have := hvalid a ha
      exact this))
  constructor
  · have h2 : (updateThumbnails (updateThumbnails db f r1).1 g true).2 =
        some (((updateThumbnails db f r1).1.albums.filter
          (isInvalidThumbnail (updateThumbnails db f r1).1.albums_assets_assets)).length) := rfl
    rw [h2, hfilter]
    rfl
  · have h1 : (updateThumbnails (updateThumbnails db f r1).1 g r2).1 =
        { (updateThumbnails db f r1).1 with
          albums := (updateThumbnails db f r1).1.albums.map
            (applyUpdate (updateThumbnails db f r1).1 g) } := rfl
    rw [h1, hmap]

/-- Witness for C4 starting from a snapshot with one invalid album. -/
theorem updateThumbnails_idempotent_witness :
    (updateThumbnails
      (updateThumbnails ⟨[⟨"A", "u", none, 0⟩], [⟨"x", 5⟩], [("A", "x")]⟩
        (fun _ => some "x") true).1 (fun _ => some "x") true).2 = some 0 ∧
    (updateThumbnails
      (updateThumbnails ⟨[⟨"A", "u", none, 0⟩], [⟨"x", 5⟩], [("A", "x")]⟩
        (fun _ => some "x") true).1 (fun _ => some "x") true).1 =
      (updateThumbnails ⟨[⟨"A", "u", none, 0⟩], [⟨"x", 5⟩], [("A", "x")]⟩
        (fun _ => some "x") true).1 :=
  updateThumbnails_idempotent _ _ _ true true (by decide) (by decide)

/-- C5: an album already satisfying the invariant is mapped to itself
(its `albumThumbnailAssetId` in particular is unchanged), stays in the
post-state, and is excluded from the rows the affected count counts. -/
theorem updateThumbnails_no_over_correction (db : Snapshot)
    (f : String → Option String)
    (album : AlbumEntity) (hmem : album ∈ db.albums)
    (hok : isInvalidThumbnail db.albums_assets_assets album = false) :
    applyUpdate db f album = album ∧
    album ∈ (updateThumbnails db f true).1.albums ∧
    album ∉ db.albums.filter (isInvalidThumbnail db.albums_assets_assets) ∧
    (updateThumbnails db f true).2 =
      some ((db.albums.filter (isInvalidThumbnail db.albums_assets_assets)).length) := by
  refine ⟨applyUpdate_of_valid hok, ?_, ?_, rfl⟩
  · rw [updateThumbnails_albums]
    have := List.mem_map_of_mem (applyUpdate db f) hmem
    rwa [applyUpdate_of_valid hok] at this
  · intro habs
    have := (List.mem_filter.1 habs).2
    simp [hok] at this

/-- Witness for C5: Scenario D of the spec — album `W` with member
`a1` and thumbnail `a1` already. -/
theorem updateThumbnails_no_over_correction_witness :
    applyUpdate ⟨[⟨"W", "u", some "a1", 0⟩], [⟨"a1", 5⟩], [("W", "a1")]⟩
        (fun _ => some "a1") ⟨"W", "u", some "a1", 0⟩ = ⟨"W", "u", some "a1", 0⟩ ∧
    (⟨"W", "u", some "a1", 0⟩ : AlbumEntity) ∈
      (updateThumbnails ⟨[⟨"W", "u", some "a1", 0⟩], [⟨"a1", 5⟩], [("W", "a1")]⟩
        (fun _ => some "a1") true).1.albums ∧
    (⟨"W", "u", some "a1", 0⟩ : AlbumEntity) ∉
      (⟨[⟨"W", "u", some "a1", 0⟩], [⟨"a1", 5⟩], [("W", "a1")]⟩ : Snapshot).albums.filter
        (isInvalidThumbnail (⟨[⟨"W", "u", some "a1", 0⟩], [⟨"a1", 5⟩], [("W", "a1")]⟩ : Snapshot).albums_assets_assets) ∧
    (updateThumbnails ⟨[⟨"W", "u", some "a1", 0⟩], [⟨"a1", 5⟩], [("W", "a1")]⟩
        (fun _ => some "a1") true).2 =
      some (((⟨[⟨"W", "u", some "a1", 0⟩], [⟨"a1", 5⟩], [("W", "a1")]⟩ : Snapshot).albums.filter
        (isInvalidThumbnail (⟨[⟨"W", "u", some "a1", 0⟩], [⟨"a1", 5⟩], [("W", "a1")]⟩ : Snapshot).albums_assets_assets)).length) :=
  updateThumbnails_no_over_correction _ _ _ (by decide) (by decide)

/-- C6: `updateThumbnails` leaves the `assets` table and the
membership table untouched, rewrites the albums row-by-row, and a row's
`id`, `ownerId` and `createdAt` are never written — an album not
matched by the `WHERE` clause is not written at all. -/
theorem updateThumbnails_frame (db : Snapshot) (f : String → Option String)
    (rep : Bool) :
    (updateThumbnails db f rep).1.assets = db.assets ∧
    (updateThumbnails db f rep).1.albums_assets_assets = db.albums_assets_assets ∧
    (updateThumbnails db f rep).1.albums = db.albums.map (applyUpdate db f) ∧
    ∀ album ∈ db.albums,
      (applyUpdate db f album).id = album.id ∧
      (applyUpdate db f album).ownerId = album.ownerId ∧
      (applyUpdate db f album).createdAt = album.createdAt ∧
      (isInvalidThumbnail db.albums_assets_assets album = false →
        applyUpdate db f album = album) := by
  refine ⟨rfl, rfl, rfl, fun album _ => ⟨?_, ?_, ?_, fun h => applyUpdate_of_valid h⟩⟩
  all_goals unfold applyUpdate
  all_goals split
  all_goals rfl

/-- Witness for C6 on a concrete snapshot with one stale album. -/
theorem updateThumbnails_frame_witness :
    (updateThumbnails ⟨[⟨"A", "u", some "z", 3⟩], [⟨"x", 5⟩], [("A", "x")]⟩
        (fun _ => some "x") true).1.assets =
      (⟨[⟨"A", "u", some "z", 3⟩], [⟨"x", 5⟩], [("A", "x")]⟩ : Snapshot).assets ∧
    (updateThumbnails ⟨[⟨"A", "u", some "z", 3⟩], [⟨"x", 5⟩], [("A", "x")]⟩
        (fun _ => some "x") true).1.albums_assets_assets =
      (⟨[⟨"A", "u", some "z", 3⟩], [⟨"x", 5⟩], [("A", "x")]⟩ : Snapshot).albums_assets_assets ∧
    (updateThumbnails ⟨[⟨"A", "u", some "z", 3⟩], [⟨"x", 5⟩], [("A", "x")]⟩
        (fun _ => some "x") true).1.albums =
      (⟨[⟨"A", "u", some "z", 3⟩], [⟨"x", 5⟩], [("A", "x")]⟩ : Snapshot).albums.map
        (applyUpdate ⟨[⟨"A", "u", some "z", 3⟩], [⟨"x", 5⟩], [("A", "x")]⟩ (fun _ => some "x")) ∧
    ∀ album ∈ (⟨[⟨"A", "u", some "z", 3⟩], [⟨"x", 5⟩], [("A", "x")]⟩ : Snapshot).albums,
      (applyUpdate ⟨[⟨"A", "u", some "z", 3⟩], [⟨"x", 5⟩], [("A", "x")]⟩
        (fun _ => some "x") album).id = album.id ∧
      (applyUpdate ⟨[⟨"A", "u", some "z", 3⟩], [⟨"x", 5⟩], [("A", "x")]⟩
        (fun _ => some "x") album).ownerId = album.ownerId ∧
      (applyUpdate ⟨[⟨"A", "u", some "z", 3⟩], [⟨"x", 5⟩], [("A", "x")]⟩
        (fun _ => some "x") album).createdAt = album.createdAt ∧
      (isInvalidThumbnail (⟨[⟨"A", "u", some "z", 3⟩], [⟨"x", 5⟩], [("A", "x")]⟩ : Snapshot).albums_assets_assets album = false →
        applyUpdate ⟨[⟨"A", "u", some "z", 3⟩], [⟨"x", 5⟩], [("A", "x")]⟩
          (fun _ => some "x") album = album) :=
  updateThumbnails_frame ⟨[⟨"A", "u", some "z", 3⟩], [⟨"x", 5⟩], [("A", "x")]⟩
    (fun _ => some "x") true

/-- C7: with a reporting driver, `affected` is `some` of exactly the
number of album rows whose thumbnail value changed; with a
non-reporting driver it is `none`, which is never the `some 0` of a
zero-change run. -/
theorem updateThumbnails_affected_semantics (db : Snapshot)
    (f : String → Option String)
    (hwf : WellFormed db) (hf : NewThumbnailSpec db f) :
    (updateThumbnails db f true).2 =
      some ((db.albums.filter (fun a =>
        (applyUpdate db f a).albumThumbnailAssetId != a.albumThumbnailAssetId)).length) ∧
    (updateThumbnails db f false).2 = none ∧
    (updateThumbnails db f false).2 ≠ some 0 := by
  have hchanged : ∀ a ∈ db.albums,
      isInvalidThumbnail db.albums_assets_assets a =
        ((applyUpdate db f a).albumThumbnailAssetId != a.albumThumbnailAssetId) := by
    intro a ha
    cases hinv : isInvalidThumbnail db.albums_assets_assets a with
    | false =>
        rw [applyUpdate_of_valid hinv]
        simp
    | true =>
        have happ : (applyUpdate db f a).albumThumbnailAssetId = f a.id := by
          simp [applyUpdate, hinv]
        rw [happ]
        symm
        rw [bne_iff_ne]
        rcases (isInvalidThumbnail_iff db a).1 hinv with ⟨hnone, x, hx⟩ | ⟨t, ht, hnm⟩
        · rw [hnone]
          intro hfn
          rcases hwf.memberAssets_ne_nil hx with ⟨b, hb, -⟩
          rw [hf.eq_none ha hfn] at hb
          exact absurd hb (List.not_mem_nil b)
        · rw [ht]
          intro hft
          rcases hf.eq_some ha hft with ⟨b, hb, hbid, -⟩
          have hrow := ((mem_memberAssets_iff db a.id b).1 hb).2
          rw [hbid] at hrow
          exact hnm hrow
  refine ⟨?_, rfl, by intro h; exact Option.noConfusion h⟩
  have h1 : (updateThumbnails db f true).2 =
      some ((db.albums.filter (isInvalidThumbnail db.albums_assets_assets)).length) := rfl
  rw [h1, List.filter_congr hchanged]

/-- Witness for C7: one stale album, one changed row; `some 1` with a
reporting driver, `none` without. -/
theorem updateThumbnails_affected_semantics_witness :
    (updateThumbnails ⟨[⟨"A", "u", some "z", 0⟩], [⟨"x", 5⟩], [("A", "x")]⟩
        (fun _ => some "x") true).2 =
      some (((⟨[⟨"A", "u", some "z", 0⟩], [⟨"x", 5⟩], [("A", "x")]⟩ : Snapshot).albums.filter (fun a =>
        (applyUpdate ⟨[⟨"A", "u", some "z", 0⟩], [⟨"x", 5⟩], [("A", "x")]⟩
          (fun _ => some "x") a).albumThumbnailAssetId != a.albumThumbnailAssetId)).length) ∧
    (updateThumbnails ⟨[⟨"A", "u", some "z", 0⟩], [⟨"x", 5⟩], [("A", "x")]⟩
        (fun _ => some "x") false).2 = none ∧
    (updateThumbnails ⟨[⟨"A", "u", some "z", 0⟩], [⟨"x", 5⟩], [("A", "x")]⟩
        (fun _ => some "x") false).2 ≠ some 0 :=
  updateThumbnails_affected_semantics _ _ (by decide) (by decide)

/-- C8: with the store unreachable, the call fails with
`StoreUnavailable` and the snapshot is returned untouched — no partial
write. -/
theorem updateThumbnailsE_store_unavailable (db : Snapshot)
    (f : String → Option String) (rep : Bool) :
    updateThumbnailsE db f rep false = (db, Except.error StoreError.storeUnavailable) := rfl

/-- Witness for C8 on a concrete snapshot. -/
theorem updateThumbnailsE_store_unavailable_witness :
    updateThumbnailsE ⟨[⟨"A", "u", none, 0⟩], [⟨"x", 5⟩], [("A", "x")]⟩
        (fun _ => some "x") true false =
      (⟨[⟨"A", "u", none, 0⟩], [⟨"x", 5⟩], [("A", "x")]⟩,
       Except.error StoreError.storeUnavailable) :=
  updateThumbnailsE_store_unavailable _ _ true

/-- C9 counterexample: an album whose two member assets share the
maximal `fileCreatedAt`.  Both `fun _ => some "x"` and
`fun _ => some "y"` are behaviours the SQL permits for the
`newThumbnail` subquery on this snapshot, and the two runs of
`updateThumbnails` produce different post-states: the source does not
determine the chosen asset from the membership snapshot. -/
theorem updateThumbnails_tie_break_not_deterministic :
    NewThumbnailSpec ⟨[⟨"A", "u", none, 0⟩], [⟨"x", 7⟩, ⟨"y", 7⟩], [("A", "x"), ("A", "y")]⟩
      (fun _ => some "x") ∧
    NewThumbnailSpec ⟨[⟨"A", "u", none, 0⟩], [⟨"x", 7⟩, ⟨"y", 7⟩], [("A", "x"), ("A", "y")]⟩
      (fun _ => some "y") ∧
    (updateThumbnails ⟨[⟨"A", "u", none, 0⟩], [⟨"x", 7⟩, ⟨"y", 7⟩], [("A", "x"), ("A", "y")]⟩
      (fun _ => some "x") true).1 ≠
    (updateThumbnails ⟨[⟨"A", "u", none, 0⟩], [⟨"x", 7⟩, ⟨"y", 7⟩], [("A", "x"), ("A", "y")]⟩
      (fun _ => some "y") true).1 :=
  ⟨by decide, by decide, by decide⟩

/-- C9 amended: whichever asset a run selects for an invalid album is
always one of the album's member assets of maximal `fileCreatedAt`; the
choice among equal timestamps is database-order-dependent and is not a
function of the membership snapshot. -/
theorem updateThumbnails_choice_is_maximal_member (db : Snapshot)
    (f : String → Option String) (hf : NewThumbnailSpec db f)
    (album : AlbumEntity) (hmem : album ∈ db.albums)
    (hinv : isInvalidThumbnail db.albums_assets_assets album = true)
    (x : String) (hx : (applyUpdate db f album).albumThumbnailAssetId = some x) :
    ∃ a ∈ memberAssets db album.id, a.id = x ∧
      ∀ b ∈ memberAssets db album.id, b.fileCreatedAt ≤ a.fileCreatedAt := by
  have happ : (applyUpdate db f album).albumThumbnailAssetId = f album.id := by
    simp [applyUpdate, hinv]
  rw [happ] at hx
  exact hf.eq_some hmem hx

/-- Witness for the amended C9 on the tied snapshot. -/
theorem updateThumbnails_choice_is_maximal_member_witness :
    ∃ a ∈ memberAssets ⟨[⟨"A", "u", none, 0⟩], [⟨"x", 7⟩, ⟨"y", 7⟩], [("A", "x"), ("A", "y")]⟩ "A",
      a.id = "x" ∧
      ∀ b ∈ memberAssets ⟨[⟨"A", "u", none, 0⟩], [⟨"x", 7⟩, ⟨"y", 7⟩], [("A", "x"), ("A", "y")]⟩ "A",
        b.fileCreatedAt ≤ a.fileCreatedAt :=
  updateThumbnails_choice_is_maximal_member
    ⟨[⟨"A", "u", none, 0⟩], [⟨"x", 7⟩, ⟨"y", 7⟩], [("A", "x"), ("A", "y")]⟩
    (fun _ => some "x") (by decide) ⟨"A", "u", none, 0⟩ (by decide) (by decide) "x" (by decide)

/-- C10: the empty-input guard returns `[]` with zero queries issued;
a non-empty input issues one query whose rows are exactly one entry per
requested album id present in the store, counting that album's
membership rows — `0` for an album with no member asset (the
`LEFT JOIN` keeps it). -/
theorem getAssetCountForIds_exact (db : Snapshot) (ids : List String)
    (hnd : (db.albums.map (fun a => a.id)).Nodup) :
    getAssetCountForIds db [] = (0, []) ∧
    (ids ≠ [] → (getAssetCountForIds db ids).1 = 1) ∧
    (∀ albumId, (∃ e ∈ (getAssetCountForIds db ids).2, e.albumId = albumId) ↔
      (albumId ∈ ids ∧ ∃ album ∈ db.albums, album.id = albumId)) ∧
    ((getAssetCountForIds db ids).2.map (fun e => e.albumId)).Nodup ∧
    ∀ e ∈ (getAssetCountForIds db ids).2,
      e.assetCount = (db.albums_assets_assets.filter (fun r => r.1 == e.albumId)).length ∧
      ((∀ r ∈ db.albums_assets_assets, r.1 ≠ e.albumId) → e.assetCount = 0) := by
  refine ⟨rfl, ?_, ?_, ?_, ?_⟩
  · intro hne
    have : ids.isEmpty = false := by
      cases ids with
      | nil => exact absurd rfl hne
      | cons a l => rfl
    simp [getAssetCountForIds, this]
  · intro albumId
    cases hids : ids.isEmpty with
    | true =>
        rw [List.isEmpty_iff] at hids
        subst hids
        simp [getAssetCountForIds]
    | false =>
        simp only [getAssetCountForIds, hids, Bool.false_eq_true, if_false, List.mem_map, List.mem_filter]
        constructor
        · rintro ⟨e, ⟨album, ⟨halbum, hcont⟩, rfl⟩, hid⟩
          simp only at hid
          subst hid
          refine ⟨?_, album, halbum, rfl⟩
          have := List.elem_iff.1 hcont
          exact this
        · rintro ⟨hin, album, halbum, rfl⟩
          refine ⟨_, ⟨album, ⟨halbum, ?_⟩, rfl⟩, rfl⟩
          exact List.elem_iff.2 hin
  · cases hids : ids.isEmpty with
    | true =>
        rw [List.isEmpty_iff] at hids
        subst hids
        simp [getAssetCountForIds]
    | false =>
        simp only [getAssetCountForIds, hids, Bool.false_eq_true, if_false]
        rw [List.map_map]
        have hcomp :
            ((fun e : AlbumAssetCount => e.albumId) ∘ (fun album : AlbumEntity =>
              ({ albumId := album.id,
                 assetCount :=
                   (db.albums_assets_assets.filter (fun r => r.1 == album.id)).length } :
                AlbumAssetCount))) = fun album : AlbumEntity => album.id := rfl
        rw [hcomp]
        exact List.Nodup.sublist
          (List.Sublist.map _ (List.filter_sublist db.albums)) hnd
  · intro e he
    cases hids : ids.isEmpty with
    | true =>
        rw [List.isEmpty_iff] at hids
        subst hids
        simp [getAssetCountForIds] at he
    | false =>
        rw [getAssetCountForIds] at he
        simp only [hids, Bool.false_eq_true, if_false, List.mem_map, List.mem_filter] at he
        rcases he with ⟨album, ⟨-, -⟩, rfl⟩
        refine ⟨rfl, fun hnone => ?_⟩
        simp only
        have : db.albums_assets_assets.filter (fun r => r.1 == album.id) = [] := by
          rw [List.filter_eq_nil_iff]
          intro r hr
          have := hnone r hr
          simp only at this
          simp [this]
        rw [this]
        rfl

/-- Witness for C10: one requested album with no member asset is
reported with count `0`; one with two membership rows with count `2`. -/
theorem getAssetCountForIds_exact_witness :
    getAssetCountForIds ⟨[⟨"A", "u", none, 0⟩, ⟨"B", "u", none, 0⟩], [⟨"x", 5⟩, ⟨"y", 3⟩], [("A", "x"), ("A", "y")]⟩ [] = (0, []) ∧
    (["A", "B", "C"] ≠ ([] : List String) →
      (getAssetCountForIds ⟨[⟨"A", "u", none, 0⟩, ⟨"B", "u", none, 0⟩], [⟨"x", 5⟩, ⟨"y", 3⟩], [("A", "x"), ("A", "y")]⟩ ["A", "B", "C"]).1 = 1) ∧
    (∀ albumId, (∃ e ∈ (getAssetCountForIds ⟨[⟨"A", "u", none, 0⟩, ⟨"B", "u", none, 0⟩], [⟨"x", 5⟩, ⟨"y", 3⟩], [("A", "x"), ("A", "y")]⟩ ["A", "B", "C"]).2, e.albumId = albumId) ↔
      (albumId ∈ ["A", "B", "C"] ∧
        ∃ album ∈ (⟨[⟨"A", "u", none, 0⟩, ⟨"B", "u", none, 0⟩], [⟨"x", 5⟩, ⟨"y", 3⟩], [("A", "x"), ("A", "y")]⟩ : Snapshot).albums,
          album.id = albumId)) ∧
    ((getAssetCountForIds ⟨[⟨"A", "u", none, 0⟩, ⟨"B", "u", none, 0⟩], [⟨"x", 5⟩, ⟨"y", 3⟩], [("A", "x"), ("A", "y")]⟩ ["A", "B", "C"]).2.map (fun e => e.albumId)).Nodup ∧
    ∀ e ∈ (getAssetCountForIds ⟨[⟨"A", "u", none, 0⟩, ⟨"B", "u", none, 0⟩], [⟨"x", 5⟩, ⟨"y", 3⟩], [("A", "x"), ("A", "y")]⟩ ["A", "B", "C"]).2,
      e.assetCount =
        ((⟨[⟨"A", "u", none, 0⟩, ⟨"B", "u", none, 0⟩], [⟨"x", 5⟩, ⟨"y", 3⟩], [("A", "x"), ("A", "y")]⟩ : Snapshot).albums_assets_assets.filter
          (fun r => r.1 == e.albumId)).length ∧
      ((∀ r ∈ (⟨[⟨"A", "u", none, 0⟩, ⟨"B", "u", none, 0⟩], [⟨"x", 5⟩, ⟨"y", 3⟩], [("A", "x"), ("A", "y")]⟩ : Snapshot).albums_assets_assets,
          r.1 ≠ e.albumId) → e.assetCount = 0) :=
  getAssetCountForIds_exact
    ⟨[⟨"A", "u", none, 0⟩, ⟨"B", "u", none, 0⟩], [⟨"x", 5⟩, ⟨"y", 3⟩], [("A", "x"), ("A", "y")]⟩
    ["A", "B", "C"] (by decide)
